import Mathlib

/-!
Shallow embedding of the windowing component of `svelte-tiny-virtual-list`
(three component variants: `src/unnamed/part_000`, the velocity-adaptive
variant; `src/src/VirtualList.svelte`, the debounce-only variant; and
`src/unnamed/part_001`, the plain variant), together with theorems settling
the frozen specification claims about the scroll coordinator, teardown,
scroll execution, configuration updates, refresh overscan and the expand
toggle.

Offsets, timestamps and sizes are JavaScript numbers; they are embedded as
rationals.  The event-driven scheduling state (the debounce `setTimeout`
handle, the end-of-scroll `setTimeout` handle and the
`requestAnimationFrame` handle) is embedded as explicit `Option` fields of a
coordinator state record, and each callback body becomes a `fire` function
on that record, so that a whole trace of scroll samples and timer firings is
a chain of pure state transitions.
-/

namespace VirtualList

/-- `Math.sign` restricted to the rational inputs that occur here:
`1` for positive, `-1` for negative, `0` for zero. -/
def jsSign (q : ℚ) : ℤ :=
  if 0 < q then 1 else if q < 0 then -1 else 0

/-- `SCROLL_DEBOUNCE = 16` (part_000 line 108, VirtualList.svelte line 98). -/
def SCROLL_DEBOUNCE : ℚ := 16

/-- `SCROLL_END_DELAY = 150` (part_000 line 52). -/
def SCROLL_END_DELAY : ℚ := 150

/-- `Math.min(4, 1 + (scrollVelocity / scrollVelocityThreshold))`
(part_000 line 434). -/
def velocityMultiplier (threshold v : ℚ) : ℚ :=
  min 4 (1 + v / threshold)

/-- `Math.min(100, Math.max(overscanCount, Math.ceil(overscanCount *
velocityMultiplier)))` (part_000 lines 435-437). -/
def dynamicOverscan (oc threshold v : ℚ) : ℚ :=
  min 100 (max oc ((⌈oc * velocityMultiplier threshold v⌉ : ℤ) : ℚ))

/-- Modelled from the spec: the spec formula
`clamp(overscan, overscan * min(4, 1 + velocity/velocityThreshold), 100)`
from section 4.3 step 4, written without the integer rounding that the
source applies; kept separate from `dynamicOverscan` for comparison. -/
def specDynamicOverscan (oc threshold v : ℚ) : ℚ :=
  min 100 (max oc (oc * velocityMultiplier threshold v))

/-- The possible values of `event.target` for events reaching
`handleScroll`: the scroll wrapper element (scroll events on an element),
`document` (scroll events delivered on `window` when the page body
scrolls), or `window` itself (`resize` events). -/
inductive EvtTarget
  | scrollWrapperT
  | documentT
  | windowT
deriving DecidableEq, Repr

/-- A pending `setTimeout` of the adaptive variant: when it fires, the
scroll offset and dynamic overscan captured at scheduling time. -/
structure Pending where
  fireAt : ℚ
  offset : ℚ
  overscan : ℚ
deriving DecidableEq, Repr

/-- A pending `requestAnimationFrame` recompute of the adaptive variant:
the offset and overscan it will apply and query with. -/
structure Raf where
  offset : ℚ
  overscan : ℚ
deriving DecidableEq, Repr

/-- Component props consulted by the adaptive scroll coordinator. -/
structure Params where
  overscanCount : ℚ
  scrollVelocityThreshold : ℚ
deriving DecidableEq, Repr

/-- Mutable coordinator state of the adaptive variant (part_000):
`state.offset`, `lastScrollTime`, `lastScrollOffset`,
`lastScrollDirection`, `isScrolling`, and the three scheduling handles
`scrollTimeout`, `scrollEndTimeout`, `rafId`. -/
@[ext] structure CoordState where
  stateOffset : ℚ
  lastScrollTime : ℚ
  lastScrollOffset : ℚ
  lastScrollDirection : ℤ
  isScrolling : Bool
  scrollTimeout : Option Pending
  scrollEndTimeout : Option Pending
  rafId : Option Raf
deriving DecidableEq, Repr

/-- `updateScrollState(currentOffset, dynamicOverscan)` of part_000
(lines 471-503): drop the sample below the 1-unit noise floor against
`lastScrollOffset`; otherwise record the offset, cancel any unfired
animation frame and schedule a new one carrying the offset and overscan.
The frame callback itself is `fireRaf`. -/
def updateScrollState (s : CoordState) (currentOffset dynOv : ℚ) : CoordState :=
  if |currentOffset - s.lastScrollOffset| < 1 then s
  else
    { s with
      lastScrollOffset := currentOffset
      rafId := some ⟨currentOffset, dynOv⟩ }

/-- `handleScroll(event)` of part_000 (lines 413-469).  Inputs: the event
target, the live wrapper offset read on entry (`getWrapperOffset()`), and
`Date.now()`. -/
def handleScroll (p : Params) (s : CoordState) (target : EvtTarget)
    (currentOffset now : ℚ) : CoordState :=
  if target ≠ EvtTarget.scrollWrapperT ∧ target ≠ EvtTarget.documentT then s
  else if s.stateOffset = currentOffset then s
  else
    let timeDiff := max 1 (now - s.lastScrollTime)
    let delta := currentOffset - s.lastScrollOffset
    let newDirection := jsSign delta
    let scrollVelocity := |delta| / timeDiff
    let s1 : CoordState := { s with isScrolling := true, scrollEndTimeout := none }
    let dynOv := dynamicOverscan p.overscanCount p.scrollVelocityThreshold scrollVelocity
    if newDirection ≠ s.lastScrollDirection then
      updateScrollState { s1 with lastScrollDirection := newDirection } currentOffset dynOv
    else if timeDiff < SCROLL_DEBOUNCE then
      if s1.scrollTimeout.isSome then s1
      else { s1 with scrollTimeout := some ⟨now + (SCROLL_DEBOUNCE - timeDiff), currentOffset, dynOv⟩ }
    else
      let s2 := updateScrollState { s1 with lastScrollTime := now } currentOffset dynOv
      { s2 with scrollEndTimeout := some ⟨now + SCROLL_END_DELAY, currentOffset, p.overscanCount⟩ }

/-- The debounce `setTimeout` callback of part_000 (lines 451-455): clear
the handle, stamp `lastScrollTime` with the fire-time clock, and apply the
offset and overscan captured when the timeout was scheduled. -/
def fireDebounce (s : CoordState) (nowAtFire : ℚ) : CoordState :=
  match s.scrollTimeout with
  | none => s
  | some pt =>
      updateScrollState { s with scrollTimeout := none, lastScrollTime := nowAtFire }
        pt.offset pt.overscan

/-- The end-of-scroll `setTimeout` callback of part_000 (lines 464-468):
leave the scrolling state and re-apply the captured offset with the base
`overscanCount` (which was captured in the pending record's overscan
field). -/
def fireScrollEnd (s : CoordState) : CoordState :=
  match s.scrollEndTimeout with
  | none => s
  | some pt =>
      updateScrollState { s with isScrolling := false, scrollEndTimeout := none }
        pt.offset pt.overscan

/-- The `requestAnimationFrame` callback of part_000 (lines 480-502):
clear the handle, commit the captured offset to `state.offset`, and issue
the visible-range requery with the captured overscan. -/
def fireRaf (s : CoordState) : CoordState :=
  match s.rafId with
  | none => s
  | some r => { s with rafId := none, stateOffset := r.offset }

/-- `onDestroy` of part_000 (lines 183-201): clear the debounce timeout,
the end-of-scroll timeout and the pending animation frame. -/
def onDestroyAdaptive (s : CoordState) : CoordState :=
  { s with scrollTimeout := none, scrollEndTimeout := none, rafId := none }

/-- A pending `setTimeout` of the debounce-only variant
(VirtualList.svelte): fire time plus the captured offset. -/
structure BasicPending where
  fireAt : ℚ
  offset : ℚ
deriving DecidableEq, Repr

/-- Coordinator state of the debounce-only variant (VirtualList.svelte).
Its `updateScrollState` calls `requestAnimationFrame` without retaining
the returned id, so pending frame callbacks accumulate in a list and no
handle exists with which to cancel them. -/
@[ext] structure BasicState where
  stateOffset : ℚ
  lastScrollTime : ℚ
  lastScrollOffset : ℚ
  scrollTimeout : Option BasicPending
  pendingRafs : List ℚ
deriving DecidableEq, Repr

/-- `updateScrollState(currentOffset)` of VirtualList.svelte
(lines 399-414): noise floor, then record the offset and schedule an
animation frame (id not retained). -/
def updateScrollStateBasic (s : BasicState) (currentOffset : ℚ) : BasicState :=
  if |currentOffset - s.lastScrollOffset| < 1 then s
  else
    { s with
      lastScrollOffset := currentOffset
      pendingRafs := currentOffset :: s.pendingRafs }

/-- `handleScroll(event)` of VirtualList.svelte (lines 372-397). -/
def handleScrollBasic (s : BasicState) (target : EvtTarget)
    (currentOffset now : ℚ) : BasicState :=
  if target ≠ EvtTarget.scrollWrapperT ∧ target ≠ EvtTarget.documentT then s
  else if s.stateOffset = currentOffset then s
  else
    let timeDiff := now - s.lastScrollTime
    if timeDiff < SCROLL_DEBOUNCE then
      if s.scrollTimeout.isSome then s
      else { s with scrollTimeout := some ⟨now + (SCROLL_DEBOUNCE - timeDiff), currentOffset⟩ }
    else
      updateScrollStateBasic { s with lastScrollTime := now } currentOffset

/-- `onDestroy` of VirtualList.svelte (lines 133-145): only the debounce
timeout is cleared; the variant has no end-of-scroll timer, and the
animation-frame ids were never retained, so pending frame callbacks
survive. -/
def onDestroyBasic (s : BasicState) : BasicState :=
  { s with scrollTimeout := none }

/-- The value adjustment common to every `scrollTo(value)`: when scrolling
vertically without an explicit `height` prop, `wrapper.offsetTop` is added
before writing (part_000 lines 379-381, VirtualList.svelte lines 338-340,
part_001 lines 331-333). -/
def scrollToValue (vertical hasHeight : Bool) (wrapperOffsetTop value : ℚ) : ℚ :=
  if vertical && !hasHeight then value + wrapperOffsetTop else value

/-- The scroll position written by `scrollTo` in part_000 (lines 383-390):
`Math.max(0, value)`. -/
def scrollToWriteAdaptive (vertical hasHeight : Bool) (wrapperOffsetTop value : ℚ) : ℚ :=
  max 0 (scrollToValue vertical hasHeight wrapperOffsetTop value)

/-- The scroll position written by `scrollTo` in VirtualList.svelte
(lines 342-349) and part_001 (lines 335-342): the value as-is, unclamped. -/
def scrollToWriteBasic (vertical hasHeight : Bool) (wrapperOffsetTop value : ℚ) : ℚ :=
  scrollToValue vertical hasHeight wrapperOffsetTop value

/-- The slice of the `SizeAndPositionManager` configuration that the
claims inspect: the item count last passed to `updateConfig`. -/
structure MgrConfig where
  itemCount : ℚ
deriving DecidableEq, Repr

/-- The manager reconfiguration performed by the adaptive variant on an
`itemCount` change: the reactive statement `itemCount = Math.max(0,
itemCount)` (part_000 line 122) coerces the prop before any consumer runs,
and the items-change path additionally passes `Math.max(0, itemCount)` to
`updateConfig` (part_000 line 136), so the manager receives the coerced
count. -/
def reconfigureAdaptive (_cfg : MgrConfig) (newItemCount : ℚ) : MgrConfig :=
  { itemCount := max 0 newItemCount }

/-- The manager reconfiguration performed by the debounce-only variant
(VirtualList.svelte lines 161-169): `updateConfig({ itemCount, ... })`
receives the prop value unmodified. -/
def reconfigureBasic (_cfg : MgrConfig) (newItemCount : ℚ) : MgrConfig :=
  { itemCount := newItemCount }

/-- The wrapper rendering mode (`constants.WRAPPER_MODE`). -/
inductive WrapperMode
  | div
  | table
deriving DecidableEq, Repr

/-- The overscan argument `refresh` passes to
`sizeAndPositionManager.getVisibleRange`:
`mode === WRAPPER_MODE.TABLE ? overscanCount * 2 : overscanCount`
(part_000 line 333, VirtualList.svelte line 275, part_001 line 260). -/
def refreshOverscan (mode : WrapperMode) (overscanCount : ℚ) : ℚ :=
  if mode = WrapperMode.table then overscanCount * 2 else overscanCount

/-- JavaScript array element read `xs[i]` used as a boolean:
an in-range element is returned, an out-of-range read yields `undefined`,
which is falsy; both are represented as `Bool` with `false` for
`undefined`. -/
def jsGetBool (xs : List Bool) (i : ℕ) : Bool :=
  xs.getD i false

/-- JavaScript array element write `xs[i] = v`: an in-range write replaces
the element; an out-of-range write grows the array to length `i + 1`,
the skipped indices reading as `undefined` (falsy, represented `false`). -/
def jsSetGrow (xs : List Bool) (i : ℕ) (v : Bool) : List Bool :=
  if i < xs.length then xs.set i v
  else xs ++ List.replicate (i - xs.length) false ++ [v]

/-- `onClick(index)` (part_000 lines 57-60, VirtualList.svelte lines
48-51, part_001 lines 48-51): no-op while `expandItemSize === 0`,
otherwise `expandItems[index] = !expandItems[index]`.  `expandItemSize`
is a number here; the array/function forms of the prop compare unequal to
`0` and behave like any nonzero value. -/
def onClick (expandItemSize : ℚ) (expandItems : List Bool) (index : ℕ) : List Bool :=
  if expandItemSize = 0 then expandItems
  else jsSetGrow expandItems index (!(jsGetBool expandItems index))

/-! Concrete data used to exercise the coordinator on explicit traces:
default-like props (`overscanCount = 15`, `scrollVelocityThreshold = 30`)
and a settled state that has applied offset `100` at time `1000` while
scrolling down. -/

/-- Props `overscanCount = 15`, `scrollVelocityThreshold = 30`
(the defaults of part_000, lines 42 and 44). -/
def p0 : Params := ⟨15, 30⟩

/-- A settled coordinator state: offset `100` applied at `t = 1000`
scrolling down, animation frame already fired, end-of-scroll timer armed
for `t = 1150`. -/
def s0 : CoordState :=
  ⟨100, 1000, 100, 1, true, none, some ⟨1150, 100, 15⟩, none⟩

/-! Evaluation lemmas for the dynamic-overscan arithmetic at the
velocities arising in the traces. -/

lemma dynamicOverscan_15_30_2 : dynamicOverscan 15 30 2 = 16 := by
  have h : (⌈(15 : ℚ) * velocityMultiplier 30 2⌉ : ℤ) = 16 := by
    rw [Int.ceil_eq_iff]
    constructor <;> norm_num [velocityMultiplier]
  simp only [dynamicOverscan, h]
  norm_num

lemma dynamicOverscan_15_30_1 : dynamicOverscan 15 30 1 = 16 := by
  have h : (⌈(15 : ℚ) * velocityMultiplier 30 1⌉ : ℤ) = 16 := by
    rw [Int.ceil_eq_iff]
    constructor <;> norm_num [velocityMultiplier]
  simp only [dynamicOverscan, h]
  norm_num

lemma dynamicOverscan_15_30_half : dynamicOverscan 15 30 (1 / 2) = 16 := by
  have h : (⌈(15 : ℚ) * velocityMultiplier 30 (1 / 2)⌉ : ℤ) = 16 := by
    rw [Int.ceil_eq_iff]
    constructor <;> norm_num [velocityMultiplier]
  simp only [dynamicOverscan, h]
  norm_num

/-! Step lemmas for the C1 trace: a same-direction sample inside the
debounce window schedules a deferral capturing offset `110`; a
direction-flip sample then applies offset `90` immediately; the animation
frame commits `90`; the deferral then fires and applies the captured
`110`. -/

lemma c1_step1 :
    handleScroll p0 s0 EvtTarget.scrollWrapperT 110 1005 =
      { s0 with
        isScrolling := true
        scrollEndTimeout := none
        scrollTimeout := some ⟨1016, 110, 16⟩ } := by
  unfold handleScroll
  norm_num [s0, p0, jsSign, SCROLL_DEBOUNCE]
  exact dynamicOverscan_15_30_2

lemma c1_step2 :
    handleScroll p0
        { s0 with
          isScrolling := true
          scrollEndTimeout := none
          scrollTimeout := some ⟨1016, 110, 16⟩ }
        EvtTarget.scrollWrapperT 90 1010 =
      ⟨100, 1000, 90, -1, true, some ⟨1016, 110, 16⟩, none, some ⟨90, 16⟩⟩ := by
  unfold handleScroll updateScrollState
  norm_num [s0, p0, jsSign]
  exact dynamicOverscan_15_30_1

lemma c1_step3 :
    fireRaf (⟨100, 1000, 90, -1, true, some ⟨1016, 110, 16⟩, none, some ⟨90, 16⟩⟩ : CoordState) =
      ⟨90, 1000, 90, -1, true, some ⟨1016, 110, 16⟩, none, none⟩ := by
  simp [fireRaf]

lemma c1_step4 :
    fireDebounce (⟨90, 1000, 90, -1, true, some ⟨1016, 110, 16⟩, none, none⟩ : CoordState) 1016 =
      ⟨90, 1016, 110, -1, true, none, none, some ⟨110, 16⟩⟩ := by
  unfold fireDebounce updateScrollState
  norm_num

/-- C1, counterexample.  The claim asserts that a deferred (debounced)
apply re-reads the live offset at fire time and that a stale, earlier
position is never applied after a later one.  In this trace from the
settled state `s0`, the sample `(offset 110, t = 1005)` schedules a
deferral capturing `110`; the direction-flip sample `(offset 90,
t = 1010)` is applied immediately (its frame commits `state.offset = 90`);
the deferral then fires at `t = 1016` and applies the captured `110` — an
offset sampled *earlier* than the already-applied `90` — because the
`setTimeout` callback in part_000 lines 451-455 closes over the
`currentOffset` read when the deferral was scheduled, not the live offset
at fire time. -/
theorem C1_counterexample :
    (fireRaf (handleScroll p0 (handleScroll p0 s0 EvtTarget.scrollWrapperT 110 1005)
        EvtTarget.scrollWrapperT 90 1010)).stateOffset = 90 ∧
    fireDebounce (fireRaf (handleScroll p0 (handleScroll p0 s0 EvtTarget.scrollWrapperT 110 1005)
        EvtTarget.scrollWrapperT 90 1010)) 1016 =
      ⟨90, 1016, 110, -1, true, none, none, some ⟨110, 16⟩⟩ ∧
    (fireRaf (fireDebounce (fireRaf (handleScroll p0 (handleScroll p0 s0 EvtTarget.scrollWrapperT 110 1005)
        EvtTarget.scrollWrapperT 90 1010)) 1016)).stateOffset = 110 := by
  rw [c1_step1, c1_step2, c1_step3, c1_step4]
  refine ⟨rfl, rfl, ?_⟩
  simp [fireRaf]

/-- C1, as amended.  For a scroll sample arriving less than 16 ms after
the last debounce-clock update with unchanged direction: when no deferral
is pending, `handleScroll` schedules one for the remaining time,
*capturing the sample's offset and overscan at scheduling time*; when a
deferral is already pending, the sample is dropped outright (only
`isScrolling` and the end-of-scroll timer are touched); and when the
deferral fires it applies the captured offset — not a re-read of the live
offset — so a stale, earlier position can be applied after a later one. -/
theorem C1_theorem :
    (∀ (p : Params) (s : CoordState) (off now : ℚ),
      s.scrollTimeout = none →
      s.stateOffset ≠ off →
      jsSign (off - s.lastScrollOffset) = s.lastScrollDirection →
      max 1 (now - s.lastScrollTime) < SCROLL_DEBOUNCE →
      handleScroll p s EvtTarget.scrollWrapperT off now =
        { s with
          isScrolling := true
          scrollEndTimeout := none
          scrollTimeout := some ⟨now + (SCROLL_DEBOUNCE - max 1 (now - s.lastScrollTime)), off,
            dynamicOverscan p.overscanCount p.scrollVelocityThreshold
              (|off - s.lastScrollOffset| / max 1 (now - s.lastScrollTime))⟩ }) ∧
    (∀ (p : Params) (s : CoordState) (off now : ℚ) (pt : Pending),
      s.scrollTimeout = some pt →
      s.stateOffset ≠ off →
      jsSign (off - s.lastScrollOffset) = s.lastScrollDirection →
      max 1 (now - s.lastScrollTime) < SCROLL_DEBOUNCE →
      handleScroll p s EvtTarget.scrollWrapperT off now =
        { s with isScrolling := true, scrollEndTimeout := none }) ∧
    (∀ (s : CoordState) (t : ℚ) (pt : Pending),
      s.scrollTimeout = some pt →
      fireDebounce s t =
        updateScrollState { s with scrollTimeout := none, lastScrollTime := t }
          pt.offset pt.overscan) := by
  refine ⟨?_, ?_, ?_⟩
  · intro p s off now h0 h1 h2 h3
    unfold handleScroll
    rw [if_neg (by simp), if_neg h1, if_neg (by simp [h2]), if_pos h3]
    simp [h0]
  · intro p s off now pt h0 h1 h2 h3
    unfold handleScroll
    rw [if_neg (by simp), if_neg h1, if_neg (by simp [h2]), if_pos h3]
    simp [h0]
  · intro s t pt h0
    unfold fireDebounce
    rw [h0]

/-- Witness for C1: the amended theorem applied on the concrete trace
state `s0` (scheduling), on a state with a pending deferral (drop), and
on the fire step. -/
theorem C1_witness :
    handleScroll p0 s0 EvtTarget.scrollWrapperT 110 1005 =
      { s0 with
        isScrolling := true
        scrollEndTimeout := none
        scrollTimeout := some ⟨1005 + (SCROLL_DEBOUNCE - max 1 (1005 - s0.lastScrollTime)), 110,
          dynamicOverscan p0.overscanCount p0.scrollVelocityThreshold
            (|110 - s0.lastScrollOffset| / max 1 (1005 - s0.lastScrollTime))⟩ } ∧
    handleScroll p0
        { s0 with scrollTimeout := some ⟨1016, 110, 16⟩ }
        EvtTarget.scrollWrapperT 112 1007 =
      { ({ s0 with scrollTimeout := some ⟨1016, 110, 16⟩ } : CoordState) with
        isScrolling := true
        scrollEndTimeout := none } ∧
    fireDebounce ({ s0 with scrollTimeout := some ⟨1016, 110, 16⟩ } : CoordState) 1016 =
      updateScrollState
        { ({ s0 with scrollTimeout := some ⟨1016, 110, 16⟩ } : CoordState) with
          scrollTimeout := none
          lastScrollTime := 1016 }
        (110 : ℚ) (16 : ℚ) := by
  refine ⟨C1_theorem.1 p0 s0 110 1005 rfl (by norm_num [s0]) (by norm_num [s0, jsSign])
      (by norm_num [s0, SCROLL_DEBOUNCE]), ?_, ?_⟩
  · exact C1_theorem.2.1 p0 _ 112 1007 ⟨1016, 110, 16⟩ rfl (by norm_num [s0])
      (by norm_num [s0, jsSign]) (by norm_num [s0, SCROLL_DEBOUNCE])
  · exact C1_theorem.2.2 _ 1016 ⟨1016, 110, 16⟩ rfl

/-! Step lemmas for the C2 trace: from `s0`, a sample `(offset 110,
t = 1020)` outside the debounce window is applied on the normal path and
arms the end-of-scroll timer; the animation frame commits it; 150 ms of
quiet later the end-of-scroll timer fires. -/

lemma c2_step1 :
    handleScroll p0 s0 EvtTarget.scrollWrapperT 110 1020 =
      ⟨100, 1020, 110, 1, true, none, some ⟨1170, 110, 15⟩, some ⟨110, 16⟩⟩ := by
  unfold handleScroll updateScrollState
  norm_num [s0, p0, jsSign, SCROLL_DEBOUNCE, SCROLL_END_DELAY]
  exact dynamicOverscan_15_30_half

/-- C2: the code contradicts the claim (and its own comment `Refresh with
normal overscan when scrolling ends`).  After the applied sample
`(offset 110, t = 1020)` and its committed animation frame, 150 ms of
inactivity elapse and the end-of-scroll timer fires: `isScrolling` is
cleared, but the final requery never happens, because the callback passes
the captured offset `110` to `updateScrollState`, which finds
`|110 - lastScrollOffset| = 0 < 1` and returns before scheduling the
animation-frame requery — the resulting state has `rafId = none`, so no
visible-range requery with the base overscan is ever issued. -/
theorem C2_theorem :
    fireScrollEnd (fireRaf (handleScroll p0 s0 EvtTarget.scrollWrapperT 110 1020)) =
      ⟨110, 1020, 110, 1, false, none, none, none⟩ ∧
    (fireScrollEnd (fireRaf (handleScroll p0 s0 EvtTarget.scrollWrapperT 110 1020))).rafId
      = none := by
  rw [c2_step1]
  have h : fireRaf (⟨100, 1020, 110, 1, true, none, some ⟨1170, 110, 15⟩, some ⟨110, 16⟩⟩ : CoordState) =
      ⟨110, 1020, 110, 1, true, none, some ⟨1170, 110, 15⟩, none⟩ := by
    simp [fireRaf]
  rw [h]
  unfold fireScrollEnd updateScrollState
  norm_num

/-- A state whose applied (post-frame) offset trails the recorded
`lastScrollOffset`: offset `100` has been recorded and its animation frame
is still pending, so `state.offset` is still `50`. -/
def c3s : CoordState :=
  ⟨50, 1000, 100, 1, true, none, none, some ⟨100, 16⟩⟩

/-- C3, counterexample.  The claim asserts that *every* sample whose
direction differs from the previous nonzero direction is applied
immediately.  From `c3s` (previous direction `+1`), the sample
`(offset 99.5, t = 1005)` has delta `-1/2`, so its direction `-1` flips;
the flip branch runs, but `updateScrollState` drops the sample at the
1-unit noise floor (`|99.5 - 100| < 1`): the resulting state still has
`lastScrollOffset = 100` and its pending frame still carries offset `100`
— the flipped sample's offset `99.5` is applied neither now nor later. -/
theorem C3_counterexample :
    jsSign ((199 / 2 : ℚ) - c3s.lastScrollOffset) ≠ c3s.lastScrollDirection ∧
    handleScroll p0 c3s EvtTarget.scrollWrapperT (199 / 2) 1005 =
      ⟨50, 1000, 100, -1, true, none, none, some ⟨100, 16⟩⟩ := by
  constructor
  · norm_num [c3s, jsSign]
  · unfold handleScroll updateScrollState
    norm_num [c3s, p0, jsSign, SCROLL_DEBOUNCE]
    rw [abs_of_nonneg (by norm_num : (0 : ℚ) ≤ 1 / 2)]
    norm_num

/-- C3, as amended.  A scroll sample whose direction differs from the
previous direction *and* whose offset delta has magnitude at least 1 (the
noise floor) is applied immediately: in the same `handleScroll`
invocation, bypassing the 16 ms debounce, the offset is recorded and the
animation-frame requery is scheduled with it, with any pending deferral
left untouched rather than consulted. -/
theorem C3_theorem (p : Params) (s : CoordState) (off now : ℚ)
    (h1 : s.stateOffset ≠ off)
    (h2 : jsSign (off - s.lastScrollOffset) ≠ s.lastScrollDirection)
    (h3 : 1 ≤ |off - s.lastScrollOffset|) :
    handleScroll p s EvtTarget.scrollWrapperT off now =
      { s with
        isScrolling := true
        scrollEndTimeout := none
        lastScrollDirection := jsSign (off - s.lastScrollOffset)
        lastScrollOffset := off
        rafId := some ⟨off, dynamicOverscan p.overscanCount p.scrollVelocityThreshold
          (|off - s.lastScrollOffset| / max 1 (now - s.lastScrollTime))⟩ } := by
  unfold handleScroll updateScrollState
  rw [if_neg (by simp), if_neg h1, if_pos h2, if_neg (by simpa using not_lt.mpr h3)]

/-- Witness for C3: the spec's scenario C.  A down-moving sample was
applied at `t = 0` (state: offset `50` applied, direction `+1`); the
up-moving sample `(offset 30, t = 5)` arrives 5 ms later, inside the 16 ms
debounce window, and is applied immediately. -/
theorem C3_witness :
    handleScroll p0 (⟨50, 0, 50, 1, true, none, some ⟨150, 50, 15⟩, none⟩ : CoordState)
        EvtTarget.scrollWrapperT 30 5 =
      { (⟨50, 0, 50, 1, true, none, some ⟨150, 50, 15⟩, none⟩ : CoordState) with
        isScrolling := true
        scrollEndTimeout := none
        lastScrollDirection := jsSign ((30 : ℚ) - 50)
        lastScrollOffset := 30
        rafId := some ⟨30, dynamicOverscan p0.overscanCount p0.scrollVelocityThreshold
          (|(30 : ℚ) - 50| / max 1 ((5 : ℚ) - 0))⟩ } :=
  C3_theorem p0 ⟨50, 0, 50, 1, true, none, some ⟨150, 50, 15⟩, none⟩ 30 5
    (by norm_num) (by norm_num [jsSign]) (by norm_num)

/-- C4, counterexample.  The claim's formula omits the `Math.ceil` the
source applies.  On the applied sample `(offset 110, t = 1020)` from `s0`
the velocity is `1/2`, so the spec formula
`clamp(15, 15 * min(4, 1 + (1/2)/30), 100)` yields `61/4 = 15.25`, while
the requery is issued with the source's value
`min(100, max(15, ceil(15.25))) = 16`. -/
theorem C4_counterexample :
    (handleScroll p0 s0 EvtTarget.scrollWrapperT 110 1020).rafId = some ⟨110, 16⟩ ∧
    specDynamicOverscan 15 30 (|(110 : ℚ) - s0.lastScrollOffset| / max 1 ((1020 : ℚ) - s0.lastScrollTime)) = 61 / 4 ∧
    (16 : ℚ) ≠ 61 / 4 := by
  refine ⟨by rw [c2_step1], ?_, by norm_num⟩
  norm_num [specDynamicOverscan, velocityMultiplier, s0]

/-- C4, as amended.  For every applied scroll sample (offset differing
from the committed `state.offset`, delta at or above the noise floor, and
either a direction flip or an out-of-debounce-window arrival), with
velocity `|delta| / max(1, elapsed)`, the overscan carried by the
scheduled requery equals
`min(100, max(overscanCount, ceil(overscanCount * min(4, 1 + velocity/scrollVelocityThreshold))))`
— the spec's clamp with the product rounded up to an integer; it never
exceeds 100, and is at least the base `overscanCount` whenever that base
is itself at most 100. -/
theorem C4_theorem :
    (∀ (p : Params) (s : CoordState) (off now : ℚ),
      s.stateOffset ≠ off →
      1 ≤ |off - s.lastScrollOffset| →
      (jsSign (off - s.lastScrollOffset) ≠ s.lastScrollDirection ∨
        SCROLL_DEBOUNCE ≤ max 1 (now - s.lastScrollTime)) →
      (handleScroll p s EvtTarget.scrollWrapperT off now).rafId =
        some ⟨off, dynamicOverscan p.overscanCount p.scrollVelocityThreshold
          (|off - s.lastScrollOffset| / max 1 (now - s.lastScrollTime))⟩) ∧
    (∀ oc th v : ℚ, dynamicOverscan oc th v ≤ 100) ∧
    (∀ oc th v : ℚ, oc ≤ 100 → oc ≤ dynamicOverscan oc th v) := by
  refine ⟨?_, ?_, ?_⟩
  · intro p s off now h1 h2 h3
    unfold handleScroll updateScrollState
    rw [if_neg (by simp), if_neg h1]
    by_cases hd : jsSign (off - s.lastScrollOffset) ≠ s.lastScrollDirection
    · rw [if_pos hd, if_neg (by simpa using not_lt.mpr h2)]
    · rcases h3 with h3 | h3
      · exact absurd h3 hd
      · rw [if_neg hd, if_neg (by simpa using not_lt.mpr h3),
          if_neg (by simpa using not_lt.mpr h2)]
  · intro oc th v
    exact min_le_left _ _
  · intro oc th v h
    exact le_min h (le_max_left _ _)

/-- Witness for C4: the amended formula evaluated on the applied sample
`(offset 110, t = 1020)` from `s0` (normal path), plus the two bounds at
the trace's parameters. -/
theorem C4_witness :
    (handleScroll p0 s0 EvtTarget.scrollWrapperT 110 1020).rafId =
      some ⟨110, dynamicOverscan p0.overscanCount p0.scrollVelocityThreshold
        (|(110 : ℚ) - s0.lastScrollOffset| / max 1 ((1020 : ℚ) - s0.lastScrollTime))⟩ ∧
    dynamicOverscan 15 30 2 ≤ 100 ∧
    (15 : ℚ) ≤ dynamicOverscan 15 30 2 :=
  ⟨C4_theorem.1 p0 s0 110 1020 (by norm_num [s0]) (by norm_num [s0])
      (Or.inr (by norm_num [s0, SCROLL_DEBOUNCE])),
    C4_theorem.2.1 15 30 2,
    C4_theorem.2.2 15 30 2 (by norm_num)⟩

/-- C5: the code contradicts the claim.  Resize events are registered to
run `handleScroll` (`window.addEventListener('resize', handleScroll)`,
part_000 line 295, VirtualList.svelte line 237), but a resize event's
target is `window`, which fails the entry guard
`event.target !== scrollWrapper && event.target !== document`, so the
handler returns with the state untouched and no requery is performed — in
both the adaptive and the debounce-only variants.  Moreover, even an
event whose target passes the guard performs no requery when the offset
is unchanged, because of the `state.offset === currentOffset` early
return. -/
theorem C5_theorem :
    (∀ (p : Params) (s : CoordState) (off now : ℚ),
      handleScroll p s EvtTarget.windowT off now = s) ∧
    (∀ (s : BasicState) (off now : ℚ),
      handleScrollBasic s EvtTarget.windowT off now = s) ∧
    (∀ (p : Params) (s : CoordState) (now : ℚ),
      handleScroll p s EvtTarget.documentT s.stateOffset now = s) := by
  refine ⟨?_, ?_, ?_⟩
  · intro p s off now
    unfold handleScroll
    rw [if_pos (by simp)]
  · intro s off now
    unfold handleScrollBasic
    rw [if_pos (by simp)]
  · intro p s now
    unfold handleScroll
    rw [if_neg (by simp), if_pos rfl]

/-- A destroyed-while-busy state of the debounce-only variant: a deferral
is pending and one scheduled animation-frame recompute (for offset `110`)
has not yet fired. -/
def b0 : BasicState := ⟨100, 1000, 110, some ⟨1016, 115⟩, [110]⟩

/-- C6, counterexample.  In the debounce-only variant
(VirtualList.svelte), `onDestroy` clears only the debounce timeout; its
`updateScrollState` never stored the `requestAnimationFrame` id (line
404), so the pending animation-frame recompute scheduled before teardown
survives `onDestroy` and fires against the destroyed component — refuting
the claim that every pending callback of all three kinds is cancelled. -/
theorem C6_counterexample :
    onDestroyBasic b0 = ⟨100, 1000, 110, none, [110]⟩ ∧
    (onDestroyBasic b0).pendingRafs ≠ [] := by
  constructor
  · rfl
  · simp [onDestroyBasic, b0]

/-- C6, as amended.  On teardown, the adaptive variant (part_000) cancels
all three pending callbacks — debounce timer, end-of-scroll timer and
animation frame; the debounce-only variant cancels only the debounce
timer, and its pending animation-frame recomputes survive destruction
because their ids were never retained. -/
theorem C6_theorem :
    (∀ s : CoordState, (onDestroyAdaptive s).scrollTimeout = none ∧
      (onDestroyAdaptive s).scrollEndTimeout = none ∧
      (onDestroyAdaptive s).rafId = none) ∧
    (∀ b : BasicState, (onDestroyBasic b).scrollTimeout = none ∧
      (onDestroyBasic b).pendingRafs = b.pendingRafs) :=
  ⟨fun _ => ⟨rfl, rfl, rfl⟩, fun _ => ⟨rfl, rfl⟩⟩

/-- C7, counterexample.  The claim asserts the scroll-execution boundary
writes `max(0, value)` in every variant; the `scrollTo` of
VirtualList.svelte and part_001 writes the computed value unclamped, so a
negative value `-10` is written as `-10`, not `0`. -/
theorem C7_counterexample :
    scrollToWriteBasic false true 0 (-10) = -10 ∧
    max 0 (-10 : ℚ) = 0 ∧
    scrollToWriteBasic false true 0 (-10) ≠ max 0 (-10 : ℚ) := by
  norm_num [scrollToWriteBasic, scrollToValue]

/-- C7, as amended.  Only the adaptive variant's `scrollTo` clamps the
lower bound, writing `max(0, value)` (after the wrapper-offset
adjustment); the other two variants write the adjusted value unclamped.
No variant clamps against `totalSize - viewportSize`: the total size is
not even an input to the write, so an offset past the content end passes
through. -/
theorem C7_theorem :
    (∀ (v h : Bool) (t x : ℚ),
      scrollToWriteAdaptive v h t x = max 0 (scrollToValue v h t x)) ∧
    (∀ (v h : Bool) (t x : ℚ), 0 ≤ scrollToValue v h t x →
      scrollToWriteAdaptive v h t x = scrollToValue v h t x) ∧
    (∀ (v h : Bool) (t x : ℚ),
      scrollToWriteBasic v h t x = scrollToValue v h t x) := by
  refine ⟨fun _ _ _ _ => rfl, ?_, fun _ _ _ _ => rfl⟩
  intro v h t x hx
  simp [scrollToWriteAdaptive, max_eq_right hx]

/-- Witness for C7: a non-negative computed value (`5`, no adjustment) is
written unchanged by the adaptive variant. -/
theorem C7_witness :
    0 ≤ scrollToValue false true 0 5 ∧
    scrollToWriteAdaptive false true 0 5 = scrollToValue false true 0 5 :=
  ⟨by norm_num [scrollToValue],
    C7_theorem.2.1 false true 0 5 (by norm_num [scrollToValue])⟩

/-- C8, counterexample.  A configuration update with `itemCount = -5` is
not rejected and does not leave the previous configuration in effect: the
debounce-only variant reconfigures the geometry manager with `-5` itself
(refuting "the geometry manager is never reconfigured with a negative
count"), and the adaptive variant coerces to `0` and reconfigures with
`0`, replacing the previous configuration (here item count `10`). -/
theorem C8_counterexample :
    reconfigureBasic ⟨10⟩ (-5) = ⟨-5⟩ ∧
    ((-5 : ℚ) < 0) ∧
    reconfigureAdaptive ⟨10⟩ (-5) = ⟨0⟩ ∧
    (⟨0⟩ : MgrConfig) ≠ ⟨10⟩ := by
  refine ⟨rfl, by norm_num, ?_, ?_⟩
  · norm_num [reconfigureAdaptive]
  · simp only [ne_eq, MgrConfig.mk.injEq]
    norm_num

/-- C8, as amended.  A negative `itemCount` is never rejected with an
error and the previous configuration does not remain in effect: on an
item-prop change, the adaptive variant coerces the count to `0`
(`Math.max(0, itemCount)`) and reconfigures the manager with `0`, while
the debounce-only variant reconfigures the manager with the negative
count unchanged. -/
theorem C8_theorem (cfg : MgrConfig) (n : ℚ) (h : n < 0) :
    reconfigureAdaptive cfg n = ⟨0⟩ ∧ reconfigureBasic cfg n = ⟨n⟩ := by
  refine ⟨?_, rfl⟩
  simp [reconfigureAdaptive, max_eq_left h.le]

/-- Witness for C8: the amended behaviour at previous count `10` and new
count `-5`. -/
theorem C8_witness :
    reconfigureAdaptive ⟨10⟩ (-5) = ⟨0⟩ ∧ reconfigureBasic ⟨10⟩ (-5) = ⟨-5⟩ :=
  C8_theorem ⟨10⟩ (-5) (by norm_num)

/-- C9: confirmed.  In every variant's `refresh`, the overscan argument
passed to `getVisibleRange` is `2 * overscanCount` in table mode and
exactly `overscanCount` in div mode. -/
theorem C9_theorem :
    ∀ oc : ℚ, refreshOverscan WrapperMode.table oc = 2 * oc ∧
      refreshOverscan WrapperMode.div oc = oc := by
  intro oc
  constructor
  · simp [refreshOverscan, mul_comm]
  · simp [refreshOverscan]

/-! Helper lemmas about JavaScript-style array reads and in-range writes,
used for the expand-toggle claim. -/

lemma getD_set_self (b : Bool) : ∀ (xs : List Bool) (i : ℕ), i < xs.length →
    (xs.set i b).getD i false = b := by
  intro xs
  induction xs with
  | nil => intro i h; simp at h
  | cons x t ih =>
    intro i h
    cases i with
    | zero => simp [List.set, List.getD]
    | succ n =>
      simp only [List.set, List.getD_cons_succ]
      exact ih n (by simpa using h)

lemma getD_set_ne (b : Bool) : ∀ (xs : List Bool) (i j : ℕ), j ≠ i →
    (xs.set i b).getD j false = xs.getD j false := by
  intro xs
  induction xs with
  | nil => intro i j _; simp [List.set]
  | cons x t ih =>
    intro i j hne
    cases i with
    | zero =>
      cases j with
      | zero => exact absurd rfl hne
      | succ m => simp [List.set, List.getD]
    | succ n =>
      cases j with
      | zero => simp [List.set, List.getD]
      | succ m =>
        simp only [List.set, List.getD_cons_succ]
        exact ih n m (fun hh => hne (by rw [hh]))

lemma set_getD_self : ∀ (xs : List Bool) (i : ℕ), i < xs.length →
    xs.set i (xs.getD i false) = xs := by
  intro xs
  induction xs with
  | nil => intro i h; simp at h
  | cons x t ih =>
    intro i h
    cases i with
    | zero => simp [List.set, List.getD]
    | succ n =>
      simp only [List.set, List.getD_cons_succ, List.cons.injEq, true_and]
      exact ih n (by simpa using h)

/-- C10, counterexample.  The claim quantifies over *every* index.  With
`expandItemSize ≠ 0` and `expandItems = []` (reachable: the array is
created as `new Array(items.length || itemCount)`, which is empty for an
empty list), `onClick(0)` writes past the end of the array: JavaScript
grows it to length 1.  Clicking twice leaves `[false]`, not the original
`[]`, so the double toggle does not restore the prior value. -/
theorem C10_counterexample :
    onClick 1 [] 0 = [true] ∧
    onClick 1 (onClick 1 [] 0) 0 = [false] ∧
    ([false] : List Bool) ≠ [] := by
  norm_num [onClick, jsSetGrow, jsGetBool]

/-- C10, as amended.  `onClick(i)` leaves `expandItems` completely
unchanged when `expandItemSize = 0`, for every index.  When
`expandItemSize ≠ 0` and `i` is in range, it sets only entry `i` to its
negation (every other entry reads unchanged), and applying it twice
restores the original array; an out-of-range `i` instead grows the
array. -/
theorem C10_theorem :
    (∀ (xs : List Bool) (i : ℕ), onClick 0 xs i = xs) ∧
    (∀ (e : ℚ) (xs : List Bool) (i : ℕ), e ≠ 0 → i < xs.length →
      onClick e xs i = xs.set i (!(xs.getD i false)) ∧
      (∀ j : ℕ, j ≠ i → (onClick e xs i).getD j false = xs.getD j false) ∧
      onClick e (onClick e xs i) i = xs) := by
  constructor
  · intro xs i
    simp [onClick]
  · intro e xs i he hi
    have h1 : onClick e xs i = xs.set i (!(xs.getD i false)) := by
      simp [onClick, jsSetGrow, jsGetBool, he, hi]
    refine ⟨h1, ?_, ?_⟩
    · intro j hj
      rw [h1]
      exact getD_set_ne _ xs i j hj
    · rw [h1]
      have hlen : i < (xs.set i (!(xs.getD i false))).length := by simpa using hi
      have h2 : onClick e (xs.set i (!(xs.getD i false))) i =
          (xs.set i (!(xs.getD i false))).set i
            (!((xs.set i (!(xs.getD i false))).getD i false)) := by
        unfold onClick jsSetGrow jsGetBool
        rw [if_neg he, if_pos hlen]
      rw [h2, getD_set_self (!(xs.getD i false)) xs i hi, List.set_set, Bool.not_not]
      exact set_getD_self xs i hi

/-- Witness for C10: the in-range toggle on `[false, true]` at index 0. -/
theorem C10_witness :
    onClick 1 [false, true] 0 = ([false, true] : List Bool).set 0 (!(([false, true] : List Bool).getD 0 false)) ∧
    (∀ j : ℕ, j ≠ 0 → (onClick 1 [false, true] 0).getD j false = ([false, true] : List Bool).getD j false) ∧
    onClick 1 (onClick 1 [false, true] 0) 0 = [false, true] :=
  C10_theorem.2 1 [false, true] 0 (by norm_num) (by norm_num)

end VirtualList
